import Mathlib

set_option autoImplicit false

/-!
Shallow embedding of the postcondition-checker pipeline of
`packages/salesforcedx-vscode-core/src/commands/util/postconditionCheckers.ts`
(here `src/unnamed/part_001`): the composite checker chain, the empty
checker, the local-existence overwrite prompt, and the two conflict
checkers (manifest-based and timestamp-based).

External collaborators (the `nls` localization table, the filesystem
existence test, the modal prompt, the settings toggle, the workspace
identity, the cache/diff collaborators) are modelled as oracle parameters.
Side effects on the output channel, telemetry, conflict view and the
deploy lock are made observable as an explicit effect trace.
-/

namespace Sfdx

/-- `ContinueResponse<T> | CancelResponse` from
`salesforcedx-utils-vscode/out/src/types`: the tagged union every
postcondition checker consumes and produces.  A cancellation optionally
carries a `msg` field. -/
inductive CheckResult (T : Type) where
  | cont (data : T)
  | cancel (msg : Option String)
deriving DecidableEq

/-- One postcondition checker, modelled extensionally by its `check`
function (the TS interface `PostconditionChecker<T>` has exactly this
surface, modulo promise wrapping). -/
def Checker (T : Type) : Type := CheckResult T → CheckResult T

/-- Loop body of `CompositePostconditionChecker.check`
(src/unnamed/part_001 lines 44-53), instrumented with the number of child
checkers invoked.  Each child runs on the current `inputs`; any
non-CONTINUE child result makes the composite return a fresh message-less
CANCEL at once. -/
def compositeLoop {T : Type} (postcheckers : List (Checker T))
    (inputs : CheckResult T) : CheckResult T × Nat :=
  match postcheckers with
  | [] => (inputs, 0)
  | postchecker :: rest =>
      match postchecker inputs with
      | .cont d =>
          let r := compositeLoop rest (.cont d)
          (r.1, r.2 + 1)
      | .cancel _ => (.cancel none, 1)

/-- `CompositePostconditionChecker.check` (src/unnamed/part_001 lines
41-56): a CANCEL input is returned unchanged without entering the loop;
a CONTINUE input is threaded through the configured checkers in order.
The second projection counts how many child checkers were invoked. -/
def CompositePostconditionChecker.check {T : Type}
    (postcheckers : List (Checker T)) (inputs : CheckResult T) :
    CheckResult T × Nat :=
  match inputs with
  | .cont d => compositeLoop postcheckers (.cont d)
  | .cancel m => (.cancel m, 0)

/-- Runs checkers sequentially from a CONTINUE payload exactly as the
composite loop would, returning the payload reached when every one of
them returned CONTINUE (`none` when some checker cancelled along the
way).  Used to phrase hypotheses about the state the loop is in when it
reaches a given position. -/
def runContinues {T : Type} (checkers : List (Checker T)) (d : T) :
    Option T :=
  match checkers with
  | [] => some d
  | c :: rest =>
      match c (.cont d) with
      | .cont d2 => runContinues rest d2
      | .cancel _ => none

/-- `EmptyPostChecker.check` (src/unnamed/part_001 lines 59-65): returns
its input unchanged. -/
def EmptyPostChecker.check {T : Type} (inputs : CheckResult T) :
    CheckResult T :=
  inputs

/-- `LocalComponent` from `salesforcedx-utils-vscode`: one local metadata
artifact candidate. -/
structure LocalComponent where
  fileName : String
  type : String
  suffix : Option String
  outputdir : String
deriving DecidableEq

/-- JavaScript `Set.prototype.add` on an insertion-ordered set modelled
as a duplicate-free list: appends the element when absent. -/
def setInsert (x : LocalComponent) (s : List LocalComponent) :
    List LocalComponent :=
  if x ∈ s then s else s ++ [x]

/-- JavaScript `new Set(array)`: deduplicates preserving first-insertion
order. -/
def setOf (l : List LocalComponent) : List LocalComponent :=
  l.foldl (fun s x => setInsert x s) []

/-- Modelled value of `nls.localize('warning_prompt_overwrite')`.  The
`nls` table is an external collaborator; the checkers compare modal
answers against these localized labels by string equality, so they are
modelled by representative pairwise-distinct English strings. -/
def warningPromptOverwrite : String := "Overwrite"

/-- Modelled value of `nls.localize('warning_prompt_skip')`. -/
def warningPromptSkip : String := "Skip"

/-- Modelled value of `nls.localize('warning_prompt_overwrite_all')`. -/
def warningPromptOverwriteAll : String := "Overwrite All"

/-- Modelled value of `nls.localize('warning_prompt_skip_all')`. -/
def warningPromptSkipAll : String := "Skip All"

/-- The label `` `${nls.localize('warning_prompt_overwrite_all')} (${othersCount})` ``
built at src/unnamed/part_001 lines 150 and 203. -/
def overwriteAllLabel (othersCount : Nat) : String :=
  warningPromptOverwriteAll ++ " (" ++ toString othersCount ++ ")"

/-- The label `` `${nls.localize('warning_prompt_skip_all')} (${othersCount})` ``
built at src/unnamed/part_001 lines 152 and 204. -/
def skipAllLabel (othersCount : Nat) : String :=
  warningPromptSkipAll ++ " (" ++ toString othersCount ++ ")"

/-- Modelled value of `nls.localize('warning_prompt_other_not_shown', n)`. -/
def warningPromptOtherNotShown (n : Nat) : String :=
  "...and " ++ toString n ++ " other files not shown\n"

/-- Modelled value of `nls.localize('warning_prompt_other_existing', n)`. -/
def warningPromptOtherExisting (n : Nat) : String :=
  toString n ++ " other existing components"

/-- Modelled value of `nls.localize('warning_prompt_overwrite_message', t, f, other, body)`. -/
def warningPromptOverwriteMessage (t f other body : String) : String :=
  t ++ " " ++ f ++ " already exists in your project. Overwrite? " ++
    other ++ "\n" ++ body

/-- One `` `${type}:${fileName}\n` `` line of the dialog body
(src/unnamed/part_001 line 176). -/
def entryLine (c : LocalComponent) : String :=
  c.type ++ ":" ++ c.fileName ++ "\n"

/-- Concatenation of the dialog-body lines of a list of components. -/
def concatLines (cs : List LocalComponent) : String :=
  match cs with
  | [] => ""
  | c :: rest => entryLine c ++ concatLines rest

/-- The `for (let j = currentIndex + 1; ...)` body-building loop of
`OverwriteComponentPrompt.buildDialogMessage` (src/unnamed/part_001 lines
167-177).  The loop is driven structurally by the remaining suffix
`found.drop j` of the component list, with `j` the current loop index;
when `j` reaches `currentIndex + 11` the summary line replaces the rest
and the loop breaks. -/
def dialogBodyAux (found : List LocalComponent) (currentIndex : Nat) :
    List LocalComponent → Nat → String
  | [], _ => ""
  | c :: rest, j =>
      if j = currentIndex + 11 then
        warningPromptOtherNotShown (found.length - currentIndex - 11)
      else entryLine c ++ dialogBodyAux found currentIndex rest (j + 1)

/-- The `body` string accumulated by
`OverwriteComponentPrompt.buildDialogMessage` at a given current index. -/
def buildDialogBody (found : List LocalComponent) (currentIndex : Nat) :
    String :=
  dialogBodyAux found currentIndex (found.drop (currentIndex + 1))
    (currentIndex + 1)

/-- `OverwriteComponentPrompt.buildDialogMessage` (src/unnamed/part_001
lines 161-188).  The out-of-bounds read `foundComponents[currentIndex]`
cannot occur on the call sites (the loop guarantees
`currentIndex < foundComponents.length`); it is modelled with a default
component. -/
def buildDialogMessage (found : List LocalComponent)
    (currentIndex : Nat) : String :=
  let existingLength := found.length
  let current := found.getD currentIndex ⟨"", "", none, ""⟩
  let body := buildDialogBody found currentIndex
  let otherFilesCount : Int := (existingLength : Int) - currentIndex - 1
  warningPromptOverwriteMessage current.type current.fileName
    (if 0 < otherFilesCount then
      warningPromptOtherExisting otherFilesCount.toNat
    else "")
    body

/-- `OverwriteComponentPrompt.buildDialogOptions` (src/unnamed/part_001
lines 190-208).  JavaScript number arithmetic on
`numOfExistingFiles - 1` is modelled over `Int`. -/
def buildDialogOptions (found skipped : List LocalComponent)
    (currentIndex : Nat) : List String :=
  let numOfExistingFiles := found.length
  let choices := [warningPromptOverwrite]
  let choices :=
    if 0 < skipped.length ∨
        (skipped.length : Int) ≠ (numOfExistingFiles : Int) - 1 then
      choices ++ [warningPromptSkip]
    else choices
  if (currentIndex : Int) < (numOfExistingFiles : Int) - 1 then
    choices ++ [overwriteAllLabel (numOfExistingFiles - currentIndex),
      skipAllLabel (numOfExistingFiles - currentIndex)]
  else choices

/-- The `for (let i = 0; ...)` loop of
`OverwriteComponentPrompt.promptOverwrite` (src/unnamed/part_001 lines
137-157), instrumented with the number of modal prompts shown.  The
modal collaborator `notificationService.showWarningModal` is modelled by
the oracle `user : Nat → Option String` giving the label answered at
loop index `i` (`none` models modal dismissal, the `default` switch
case).  The loop is driven structurally by the remaining suffix
`found.drop i`, whose head is `foundComponents[i]`. -/
def promptLoopAux (user : Nat → Option String)
    (found : List LocalComponent) :
    List LocalComponent → Nat → List LocalComponent →
      Option (List LocalComponent) × Nat
  | [], _, skipped => (some skipped, 0)
  | current :: rest, i, skipped =>
      let choice := user i
      let othersCount := found.length - i
      if choice = some warningPromptOverwrite then
        let r := promptLoopAux user found rest (i + 1) skipped
        (r.1, r.2 + 1)
      else if choice = some warningPromptSkip then
        let r := promptLoopAux user found rest (i + 1)
          (setInsert current skipped)
        (r.1, r.2 + 1)
      else if choice = some (overwriteAllLabel othersCount) then
        (some skipped, 1)
      else if choice = some (skipAllLabel othersCount) then
        (some (setOf (found.drop i)), 1)
      else (none, 1)

/-- `OverwriteComponentPrompt.promptOverwrite` (src/unnamed/part_001
lines 133-159): `none` is the no-decision (cancel) outcome, `some s` the
accumulated skip set. -/
def promptOverwrite (user : Nat → Option String)
    (found : List LocalComponent) : Option (List LocalComponent) :=
  (promptLoopAux user found found 0 []).1

/-- How many modal prompts `promptOverwrite` shows. -/
def promptOverwriteCount (user : Nat → Option String)
    (found : List LocalComponent) : Nat :=
  (promptLoopAux user found found 0 []).2

/-- The `LocalComponent | LocalComponent[]` payload of the overwrite
checker (`OneOrMany`, src/unnamed/part_001 line 32). -/
inductive OneOrMany where
  | one (c : LocalComponent)
  | many (cs : List LocalComponent)
deriving DecidableEq

/-- The `data instanceof Array ? data : [data]` normalization
(src/unnamed/part_001 line 74). -/
def OneOrMany.toList : OneOrMany → List LocalComponent
  | .one c => [c]
  | .many cs => cs

/-- `OverwriteComponentPrompt.check` (src/unnamed/part_001 lines 70-93).
The filesystem existence test `componentExists` (which consults the
metadata dictionary, path strategies and `existsSync`) is an external
oracle; `user` is the modal-answer oracle threaded to
`promptOverwrite`. -/
def OverwriteComponentPrompt.check
    (componentExists : LocalComponent → Bool)
    (user : Nat → Option String) (inputs : CheckResult OneOrMany) :
    CheckResult OneOrMany :=
  match inputs with
  | .cont data =>
      let componentsToCheck := data.toList
      let foundComponents := componentsToCheck.filter componentExists
      if 0 < foundComponents.length then
        match promptOverwrite user foundComponents with
        | none => .cancel none
        | some toSkip =>
            if toSkip.length = componentsToCheck.length then .cancel none
            else
              match data with
              | .many _ =>
                  .cont (.many (componentsToCheck.filter
                    (fun selection => !(toSkip.contains selection))))
              | .one c => .cont (.one c)
      else .cont data
  | .cancel _ => .cancel none

/-- One record of `DirectoryDiffResults.different`. -/
structure FileDiff where
  localRelPath : String
deriving DecidableEq

/-- `DirectoryDiffResults` from the conflict module: the `different` set
is modelled as its deterministic iteration order. -/
structure DirectoryDiffResults where
  different : List FileDiff
  scannedRemote : Nat
  scannedLocal : Nat
deriving DecidableEq

/-- `ConflictDetectionMessages` (src/unnamed/part_001 lines 211-214);
`warningMessage` is the localized value of `warningMessageKey`. -/
structure ConflictDetectionMessages where
  warningMessage : String
  commandHint : String → String

/-- Observable side effects of the conflict checkers: output-channel
writes, telemetry, the conflict view, the modal prompt, the deploy-lock
release, and markers for each collaborator invocation. -/
inductive Effect where
  | appendLine (line : String)
  | showChannelOutput
  | showCommandWithTimestamp (line : String)
  | consoleError
  | sendException (name message : String)
  | unlock
  | visualize (title user : String) (reveal withResults : Bool)
  | modalPrompt (message : String) (options : List String)
  | compareForConflicts
  | loadCacheCall (componentPath : String)
  | createDiffsCall
deriving DecidableEq

/-- `true` on the collaborator-invocation effects (remote comparison,
snapshot load, diff build, interactive prompt). -/
def isCollaboratorCall : Effect → Bool
  | .compareForConflicts => true
  | .loadCacheCall _ => true
  | .createDiffsCall => true
  | .modalPrompt _ _ => true
  | _ => false

/-- Modelled `nls.localize('conflict_detect_no_default_username')`. -/
def conflictDetectNoDefaultUsername : String :=
  "Conflict detection requires that a default org is set"

/-- Modelled `nls.localize('conflict_detect_view_root', u, n)`. -/
def conflictDetectViewRoot (u : String) (n : Nat) : String :=
  "Conflicts: " ++ u ++ " (" ++ toString n ++ ")"

/-- Modelled `nls.localize('conflict_detect_conflict_header', n, r, l)`. -/
def conflictDetectConflictHeader (n r l : Nat) : String :=
  "Conflicts found: " ++ toString n ++ " of " ++ toString r ++
    " remote and " ++ toString l ++ " local files scanned"

/-- Modelled `nls.localize('conflict_detect_conflict_header_timestamp', n)`. -/
def conflictDetectConflictHeaderTimestamp (n : Nat) : String :=
  "Conflicts found: " ++ toString n ++ " files"

/-- Modelled `nls.localize('conflict_detect_override')`. -/
def conflictDetectOverride : String := "Override Conflicts"

/-- Modelled `nls.localize('conflict_detect_show_conflicts')`. -/
def conflictDetectShowConflicts : String := "Show Conflicts"

/-- Modelled `nls.localize('conflict_detect_command_hint', hint)`. -/
def conflictDetectCommandHint (hint : String) : String :=
  "Run the command to overwrite the conflicts: " ++ hint

/-- Modelled `nls.localize('conflict_detect_error', e)`. -/
def conflictDetectError (e : String) : String :=
  "Conflict detection error: " ++ e

/-- Modelled `nls.localize('conflict_detect_execution_name')`. -/
def conflictDetectExecutionName : String := "Conflict Detection"

/-- Modelled `nls.localize('channel_starting_message')`. -/
def channelStartingMessage : String := "Starting "

/-- Modelled `nls.localize('channel_end')`. -/
def channelEnd : String := "Ended"

/-- `normalize(basename(p))` from the Node `path` collaborator, modelled
as the last slash-separated component. -/
def basenameNormalized (p : String) : String :=
  (p.splitOn "/").getLastD p

/-- JavaScript truthiness test on `workspaceContext.username`
(`string | undefined`): `undefined` and the empty string are falsy. -/
def isFalsyUsername : Option String → Bool
  | none => true
  | some s => s.isEmpty

/-- The collaborators of `ConflictDetectionChecker`: the settings
toggle, the workspace identity, `conflictDetector.checkForConflicts`
(as a pure oracle from the resolved username and manifest), and the
modal prompt oracle (from message and offered option labels to the
chosen label, `none` on dismissal). -/
structure ConflictEnv where
  conflictDetectionEnabled : Bool
  username : Option String
  checkForConflicts : String → String → DirectoryDiffResults
  modalChoice : String → List String → Option String

/-- `ConflictDetectionChecker.handleConflicts` (src/unnamed/part_001
lines 250-311), returning the check result together with its observable
effect trace. -/
def ConflictDetectionChecker.handleConflicts (env : ConflictEnv)
    (messages : ConflictDetectionMessages)
    (manifest usernameOrAlias : String)
    (results : DirectoryDiffResults) :
    CheckResult String × List Effect :=
  let conflictTitle :=
    conflictDetectViewRoot usernameOrAlias results.different.length
  if results.different.length = 0 then
    (.cont manifest,
     [.visualize conflictTitle usernameOrAlias false false])
  else
    let header :=
      Effect.appendLine (conflictDetectConflictHeader
          results.different.length results.scannedRemote
          results.scannedLocal) ::
        results.different.map
          (fun file => Effect.appendLine
            (basenameNormalized file.localRelPath)) ++
        [Effect.showChannelOutput]
    let options := [conflictDetectOverride, conflictDetectShowConflicts]
    let choice := env.modalChoice messages.warningMessage options
    let shown := header ++ [Effect.modalPrompt messages.warningMessage options]
    if choice = some conflictDetectOverride then
      (.cont manifest,
       shown ++ [.visualize conflictTitle usernameOrAlias false false])
    else
      let doReveal := choice = some conflictDetectShowConflicts
      (.cancel none,
       shown ++
        [.appendLine (conflictDetectCommandHint
            (messages.commandHint manifest)),
         .showChannelOutput,
         .visualize conflictTitle usernameOrAlias doReveal true])

/-- `ConflictDetectionChecker.check` (src/unnamed/part_001 lines
223-248): pass-through when the setting is disabled; cancel with a
message when no username is resolvable; otherwise compare and handle
conflicts.  A CANCEL input (with the setting enabled) yields a fresh
message-less CANCEL. -/
def ConflictDetectionChecker.check (env : ConflictEnv)
    (messages : ConflictDetectionMessages)
    (inputs : CheckResult String) : CheckResult String × List Effect :=
  if !env.conflictDetectionEnabled then (inputs, [])
  else
    match inputs with
    | .cont manifest =>
        if isFalsyUsername env.username then
          (.cancel (some conflictDetectNoDefaultUsername), [])
        else
          let username := env.username.getD ""
          let results := env.checkForConflicts username manifest
          let r := ConflictDetectionChecker.handleConflicts env messages
            manifest username results
          (r.1, Effect.compareForConflicts :: r.2)
    | .cancel _ => (.cancel none, [])

/-- The collaborators of `TimestampConflictChecker`:
`MetadataCacheService.loadCache` (which may throw, modelled as
`Except`), `TimestampConflictDetector.createDiffs` (likewise), the
settings toggle, the workspace identity, the workspace root and the
modal prompt oracle.  `κ` is the opaque cache-result payload type. -/
structure TimestampEnv (κ : Type) where
  conflictDetectionEnabled : Bool
  username : Option String
  rootWorkspacePath : String
  loadCache : String → String → Bool → Except String κ
  createDiffs : κ → Except String DirectoryDiffResults
  modalChoice : String → List String → Option String

/-- The effect trace of the `catch` block of
`TimestampConflictChecker.check` (src/unnamed/part_001 lines 364-373):
console error, localized error line on the channel, telemetry exception,
deploy-lock release. -/
def timestampCatchEffects (e : String) : List Effect :=
  [.consoleError,
   .appendLine (conflictDetectError e),
   .sendException "ConflictDetectionException" (conflictDetectError e),
   .unlock]

/-- `TimestampConflictChecker.handleConflicts` (src/unnamed/part_001
lines 378-436).  Differences from the manifest variant: the timestamp
conflict header, no extra channel reveals, the choice order
show-conflicts-first, and the deploy-lock release on the cancel path. -/
def TimestampConflictChecker.handleConflicts {κ : Type}
    (env : TimestampEnv κ) (messages : ConflictDetectionMessages)
    (componentPath usernameOrAlias : String)
    (results : DirectoryDiffResults) :
    CheckResult String × List Effect :=
  let conflictTitle :=
    conflictDetectViewRoot usernameOrAlias results.different.length
  if results.different.length = 0 then
    (.cont componentPath,
     [.visualize conflictTitle usernameOrAlias false false])
  else
    let header :=
      Effect.appendLine (conflictDetectConflictHeaderTimestamp
          results.different.length) ::
        results.different.map
          (fun file => Effect.appendLine
            (basenameNormalized file.localRelPath))
    let options := [conflictDetectShowConflicts, conflictDetectOverride]
    let choice := env.modalChoice messages.warningMessage options
    let shown := header ++ [Effect.modalPrompt messages.warningMessage options]
    if choice = some conflictDetectOverride then
      (.cont componentPath,
       shown ++ [.visualize conflictTitle usernameOrAlias false false])
    else
      let doReveal := choice = some conflictDetectShowConflicts
      (.cancel none,
       shown ++
        [.appendLine (conflictDetectCommandHint
            (messages.commandHint componentPath)),
         .visualize conflictTitle usernameOrAlias doReveal true,
         .unlock])

/-- `TimestampConflictChecker.check` (src/unnamed/part_001 lines
323-376): pass-through when the setting is disabled; otherwise the
channel banner is written, a missing username cancels with a message,
and the snapshot-load and diff-build collaborators run under the
try/catch whose handler logs, releases the deploy lock and falls
through to a message-less CANCEL. -/
def TimestampConflictChecker.check {κ : Type} (isManifest : Bool)
    (messages : ConflictDetectionMessages) (env : TimestampEnv κ)
    (inputs : CheckResult String) : CheckResult String × List Effect :=
  if !env.conflictDetectionEnabled then (inputs, [])
  else
    match inputs with
    | .cont componentPath =>
        let banner : List Effect :=
          [.showChannelOutput,
           .showCommandWithTimestamp (channelStartingMessage ++
             conflictDetectExecutionName ++ "\n")]
        if isFalsyUsername env.username then
          (.cancel (some conflictDetectNoDefaultUsername), banner)
        else
          let username := env.username.getD ""
          let entered := banner ++ [Effect.loadCacheCall componentPath]
          match env.loadCache componentPath env.rootWorkspacePath
              isManifest with
          | .error e => (.cancel none, entered ++ timestampCatchEffects e)
          | .ok cache =>
              let entered := entered ++ [Effect.createDiffsCall]
              match env.createDiffs cache with
              | .error e =>
                  (.cancel none, entered ++ timestampCatchEffects e)
              | .ok diffs =>
                  let entered := entered ++
                    [Effect.showCommandWithTimestamp (channelEnd ++ " " ++
                      conflictDetectExecutionName ++ "\n")]
                  let r := TimestampConflictChecker.handleConflicts env
                    messages componentPath username diffs
                  (r.1, entered ++ r.2)
    | .cancel _ => (.cancel none, [])

/-! Concrete sample data used to evaluate the embedded operations on
closed inputs. -/

/-- Sample component A. -/
def cA : LocalComponent := ⟨"A", "ApexClass", none, "classes"⟩

/-- Sample component B. -/
def cB : LocalComponent := ⟨"B", "ApexClass", none, "classes"⟩

/-- Sample component C. -/
def cC : LocalComponent := ⟨"C", "ApexClass", none, "classes"⟩

/-- Existence oracle under which only component A is on disk. -/
def existsOnlyA : LocalComponent → Bool := fun c => c.fileName == "A"

/-- Existence oracle under which every component is on disk. -/
def allExist : LocalComponent → Bool := fun _ => true

/-- A user who dismisses every modal. -/
def dismissUser : Nat → Option String := fun _ => none

/-- A user who answers Skip to every modal. -/
def alwaysSkipUser : Nat → Option String := fun _ => some warningPromptSkip

/-- A user who answers Skip at index 0 and Skip All (2) afterwards. -/
def skipThenSkipAllUser : Nat → Option String := fun i =>
  if i = 0 then some warningPromptSkip else some (skipAllLabel 2)

/-- Twelve distinct sample components. -/
def manyTwelve : List LocalComponent :=
  (List.range 12).map
    (fun n => ⟨"F" ++ toString n, "ApexClass", none, "classes"⟩)

/-- A child checker over `Nat` payloads that passes its input through. -/
def idCheckerNat : Checker Nat := fun x => x

/-- A child checker that cancels with a message. -/
def cancelStopChecker : Checker Nat := fun _ => .cancel (some "stop")

/-- A child checker that continues with the payload 7. -/
def contSevenChecker : Checker Nat := fun _ => .cont 7

/-- Sample conflict-detection messages. -/
def sampleMessages : ConflictDetectionMessages :=
  ⟨"Conflicts were detected", fun s => "retrieve " ++ s⟩

/-- A manifest-checker environment with the setting disabled. -/
def disabledConflictEnv : ConflictEnv :=
  ⟨false, some "user", fun _ _ => ⟨[], 0, 0⟩, fun _ _ => none⟩

/-- A timestamp-checker environment with the setting disabled. -/
def disabledTimestampEnv : TimestampEnv Unit :=
  ⟨false, some "user", "ws", fun _ _ _ => .ok (),
   fun _ => .ok ⟨[], 0, 0⟩, fun _ _ => none⟩

/-- A manifest-checker environment with no resolvable username. -/
def noUserConflictEnv : ConflictEnv :=
  ⟨true, none, fun _ _ => ⟨[], 0, 0⟩, fun _ _ => none⟩

/-- A timestamp-checker environment with no resolvable username. -/
def noUserTimestampEnv : TimestampEnv Unit :=
  ⟨true, none, "ws", fun _ _ _ => .ok (),
   fun _ => .ok ⟨[], 0, 0⟩, fun _ _ => none⟩

/-- A timestamp-checker environment whose snapshot load throws. -/
def throwingTimestampEnv : TimestampEnv Unit :=
  ⟨true, some "user", "ws", fun _ _ _ => .error "boom",
   fun _ => .ok ⟨[], 0, 0⟩, fun _ _ => none⟩

/-! Theorems. -/

/-- When the composite loop reaches a checker that cancels (all earlier
checkers in `pre` having returned CONTINUE), it returns a fresh
message-less CANCEL having invoked exactly the checkers up to and
including the cancelling one. -/
theorem compositeLoop_append_cancel {T : Type} (pre : List (Checker T))
    (c : Checker T) (post : List (Checker T)) (d s : T)
    (m : Option String) (hpre : runContinues pre d = some s)
    (hc : c (.cont s) = .cancel m) :
    compositeLoop (pre ++ c :: post) (.cont d)
      = (.cancel none, pre.length + 1) := by
  induction pre generalizing d with
  | nil =>
      simp only [runContinues, Option.some.injEq] at hpre
      subst hpre
      simp [compositeLoop, hc]
  | cons p rest ih =>
      simp only [runContinues] at hpre
      cases hp : p (.cont d) with
      | cont d2 =>
          rw [hp] at hpre
          simp at hpre
          simp only [List.cons_append, compositeLoop, hp, List.append_eq]
          rw [ih d2 hpre]
          simp
      | cancel m2 =>
          rw [hp] at hpre
          simp at hpre

/-- C1: For every chain of checkers and every CONTINUE input, if the
checker at position `i` — reached with every earlier checker returning
CONTINUE — returns CANCEL, the composite returns CANCEL and invokes
exactly the checkers at positions `0..i`, so the checkers at positions
`i+1..n` never run; and a CANCEL input is returned unchanged without
invoking any checker. -/
theorem composite_short_circuits {T : Type} (pre post : List (Checker T))
    (c : Checker T) (d s : T) (m mc : Option String)
    (hpre : runContinues pre d = some s)
    (hc : c (.cont s) = .cancel m) :
    CompositePostconditionChecker.check (pre ++ c :: post) (.cont d)
        = (.cancel none, pre.length + 1) ∧
      CompositePostconditionChecker.check (pre ++ c :: post) (.cancel mc)
        = (.cancel mc, 0) :=
  ⟨compositeLoop_append_cancel pre c post d s m hpre hc, rfl⟩

/-- Witness for C1 on a three-checker chain cancelling at position 1. -/
theorem composite_short_circuits_witness :
    (runContinues [idCheckerNat] 3 = some 3 ∧
      cancelStopChecker (.cont 3) = .cancel (some "stop")) ∧
    CompositePostconditionChecker.check
        ([idCheckerNat] ++ cancelStopChecker :: [contSevenChecker])
        (.cont 3) = (.cancel none, 2) ∧
    CompositePostconditionChecker.check
        ([idCheckerNat] ++ cancelStopChecker :: [contSevenChecker])
        (.cancel (some "earlier")) = (.cancel (some "earlier"), 0) :=
  ⟨⟨rfl, rfl⟩,
    composite_short_circuits [idCheckerNat] [contSevenChecker]
      cancelStopChecker 3 3 (some "stop") (some "earlier") rfl rfl⟩

/-- C10: whenever an inner checker of the composite chain cancels with a
message, the composite returns a CANCEL that carries no message: the
inner cancellation message never propagates to the caller. -/
theorem composite_drops_inner_cancel_message {T : Type}
    (pre post : List (Checker T)) (c : Checker T) (d s : T) (msg : String)
    (hpre : runContinues pre d = some s)
    (hc : c (.cont s) = .cancel (some msg)) :
    (CompositePostconditionChecker.check (pre ++ c :: post)
        (.cont d)).1 = .cancel none := by
  have h := compositeLoop_append_cancel pre c post d s (some msg) hpre hc
  show (compositeLoop (pre ++ c :: post) (.cont d)).1 = .cancel none
  rw [h]

/-- Witness for C10 with a single cancelling checker carrying "stop". -/
theorem composite_drops_inner_cancel_message_witness :
    (runContinues [] 5 = some 5 ∧
      cancelStopChecker (.cont 5) = .cancel (some "stop")) ∧
    (CompositePostconditionChecker.check ([] ++ cancelStopChecker :: [])
        (.cont 5)).1 = .cancel none :=
  ⟨⟨rfl, rfl⟩,
    composite_drops_inner_cancel_message [] [] cancelStopChecker 5 5
      "stop" rfl rfl⟩

/-- C9: `EmptyPostChecker.check` returns every input unchanged, whether
CONTINUE with any payload or CANCEL with or without a message. -/
theorem emptyPostChecker_identity {T : Type} (x : CheckResult T) :
    EmptyPostChecker.check x = x := rfl

/-- Length of the Skip All label. -/
theorem skipAllLabel_length (n : Nat) :
    (skipAllLabel n).length = 11 + (toString n).length := by
  simp only [skipAllLabel, warningPromptSkipAll, String.length_append,
    show "Skip All".length = 8 from rfl, show " (".length = 2 from rfl,
    show ")".length = 1 from rfl]
  omega

/-- Length of the Overwrite All label. -/
theorem overwriteAllLabel_length (n : Nat) :
    (overwriteAllLabel n).length = 16 + (toString n).length := by
  simp only [overwriteAllLabel, warningPromptOverwriteAll,
    String.length_append, show "Overwrite All".length = 13 from rfl,
    show " (".length = 2 from rfl, show ")".length = 1 from rfl]
  omega

/-- The Skip All label never coincides with the plain Overwrite label. -/
theorem skipAllLabel_ne_overwrite (n : Nat) :
    skipAllLabel n ≠ warningPromptOverwrite := by
  intro h
  have hlen := congrArg String.length h
  rw [skipAllLabel_length,
    show warningPromptOverwrite.length = 9 from rfl] at hlen
  omega

/-- The Skip All label never coincides with the plain Skip label. -/
theorem skipAllLabel_ne_skip (n : Nat) :
    skipAllLabel n ≠ warningPromptSkip := by
  intro h
  have hlen := congrArg String.length h
  rw [skipAllLabel_length,
    show warningPromptSkip.length = 4 from rfl] at hlen
  omega

/-- The Skip All label never coincides with the Overwrite All label. -/
theorem skipAllLabel_ne_overwriteAll (n : Nat) :
    skipAllLabel n ≠ overwriteAllLabel n := by
  intro h
  have hlen := congrArg String.length h
  rw [skipAllLabel_length, overwriteAllLabel_length] at hlen
  omega

/-- C3 (amended): for every ordered sequence of found items and every
index `i < N - 1`, if the user chooses Skip remaining (K) at index `i`,
the batch decision loop terminates immediately — exactly one further
prompt is shown, so index `i+1` is never visited — and returns exactly
the set of items from index `i` to `N-1`, discarding the skip set
accumulated so far. -/
theorem promptLoop_skip_remaining (user : Nat → Option String)
    (found : List LocalComponent) (i : Nat)
    (skipped : List LocalComponent) (x : LocalComponent)
    (rest : List LocalComponent) (hdrop : found.drop i = x :: rest)
    (_hlast : i + 1 < found.length)
    (hchoice : user i = some (skipAllLabel (found.length - i))) :
    promptLoopAux user found (found.drop i) i skipped
      = (some (setOf (found.drop i)), 1) := by
  rw [hdrop]
  simp only [promptLoopAux, hchoice]
  rw [if_neg (by simp [skipAllLabel_ne_overwrite]),
    if_neg (by simp [skipAllLabel_ne_skip]),
    if_neg (by simp [skipAllLabel_ne_overwriteAll])]
  simp [hdrop]

/-- Witness for C3 at index 1 of a three-item batch with component A
already skipped. -/
theorem promptLoop_skip_remaining_witness :
    ([cA, cB, cC].drop 1 = cB :: [cC] ∧ 1 + 1 < [cA, cB, cC].length ∧
      skipThenSkipAllUser 1 = some (skipAllLabel ([cA, cB, cC].length - 1))) ∧
    promptLoopAux skipThenSkipAllUser [cA, cB, cC] ([cA, cB, cC].drop 1)
        1 [cA] = (some (setOf ([cA, cB, cC].drop 1)), 1) :=
  ⟨⟨rfl, by decide, rfl⟩,
    promptLoop_skip_remaining skipThenSkipAllUser [cA, cB, cC] 1 [cA]
      cB [cC] rfl (by decide) rfl⟩

/-- Counterexample for C3 as stated: at index 0 the user skips component
A, at index 1 the user chooses Skip remaining (2); the loop returns only
the items from index 1 on — the previously accumulated skip (component
A) is discarded rather than unioned in. -/
theorem promptOverwrite_skip_remaining_counterexample :
    skipThenSkipAllUser 0 = some warningPromptSkip ∧
    skipThenSkipAllUser 1 = some (skipAllLabel 2) ∧
    promptOverwrite skipThenSkipAllUser [cA, cB, cC] = some [cB, cC] ∧
    cA ∉ ([cB, cC] : List LocalComponent) := by
  refine ⟨rfl, rfl, by decide, by decide⟩

/-- C2 (amended): for a CONTINUE input with at least one existing
candidate, if the batch prompt returns no decision (user dismissal), or
returns a skip set whose size equals the number of components to check
— i.e. every checked component exists and all of them are skipped — the
overall result of the overwrite checker is CANCEL. -/
theorem overwriteCheck_cancels (componentExists : LocalComponent → Bool)
    (user : Nat → Option String) (data : OneOrMany)
    (hfound : 0 < (data.toList.filter componentExists).length)
    (hp : promptOverwrite user (data.toList.filter componentExists)
            = none ∨
          ∃ s, promptOverwrite user (data.toList.filter componentExists)
              = some s ∧ s.length = data.toList.length) :
    OverwriteComponentPrompt.check componentExists user (.cont data)
      = .cancel none := by
  simp only [OverwriteComponentPrompt.check]
  rw [if_pos hfound]
  rcases hp with h | ⟨s, hs, hlen⟩
  · rw [h]
  · rw [hs]
    simp [hlen]

/-- Witness for C2: a single existing component whose prompt the user
dismisses. -/
theorem overwriteCheck_cancels_witness :
    (0 < ((OneOrMany.many [cA]).toList.filter allExist).length ∧
      promptOverwrite dismissUser
        ((OneOrMany.many [cA]).toList.filter allExist) = none) ∧
    OverwriteComponentPrompt.check allExist dismissUser
      (.cont (.many [cA])) = .cancel none :=
  ⟨⟨by decide, rfl⟩,
    overwriteCheck_cancels allExist dismissUser (.many [cA]) (by decide)
      (Or.inl rfl)⟩

/-- Counterexample for C2 as stated: of the two components to check only
A exists, the user skips it — so the skip set contains every presented
(existing) candidate — yet the checker continues with the narrowed list
instead of cancelling, because the code compares the skip-set size with
the number of components to check, not with the number found. -/
theorem overwriteCheck_skip_all_found_counterexample :
    (OneOrMany.many [cA, cB]).toList.filter existsOnlyA = [cA] ∧
    promptOverwrite alwaysSkipUser [cA] = some [cA] ∧
    OverwriteComponentPrompt.check existsOnlyA alwaysSkipUser
      (.cont (.many [cA, cB])) = .cont (.many [cB]) := by
  refine ⟨by decide, by decide, by decide⟩

/-- C5 (amended): for a batch of exactly one found item with an empty
skip set, the offered choices contain no Overwrite-remaining or
Skip-remaining option and no Skip either: they are exactly the single
Overwrite choice, with modal dismissal as the remaining outcome. -/
theorem buildDialogOptions_singleton (c : LocalComponent) :
    buildDialogOptions [c] [] 0 = [warningPromptOverwrite] := rfl

/-- Counterexample for C5 as stated: for a singleton batch with an empty
skip set the offered choices are exactly the Overwrite choice, and the
Skip choice is not offered. -/
theorem buildDialogOptions_singleton_counterexample :
    buildDialogOptions [cA] [] 0 = [warningPromptOverwrite] ∧
    warningPromptSkip ∉ buildDialogOptions [cA] [] 0 := by
  refine ⟨rfl, by decide⟩

/-- Sliding-window lemma for the dialog-body loop: starting at index `j`
with `k = i + 11 - j` entries still allowed before the truncation point,
the loop emits the next `k` entry lines and then the summary line. -/
theorem dialogBodyAux_window (found : List LocalComponent) (i : Nat)
    (hN : i + 11 < found.length) :
    ∀ (k j : Nat), j + k = i + 11 → i + 1 ≤ j →
      dialogBodyAux found i (found.drop j) j
        = concatLines ((found.drop j).take k) ++
            warningPromptOtherNotShown (found.length - i - 11) := by
  intro k
  induction k with
  | zero =>
      intro j hj _
      have hj11 : j = i + 11 := by omega
      subst hj11
      rw [List.drop_eq_getElem_cons hN]
      simp only [dialogBodyAux, if_pos rfl, List.take_zero, concatLines]
      exact (String.empty_append _).symm
  | succ k ih =>
      intro j hj hge
      have hjN : j < found.length := by omega
      rw [List.drop_eq_getElem_cons hjN]
      simp only [dialogBodyAux]
      rw [if_neg (by omega : ¬ j = i + 11)]
      rw [ih (j + 1) (by omega) (by omega)]
      rw [List.take_succ_cons]
      simp only [concatLines]
      rw [String.append_assoc]

/-- C6: for every sequence of found items and every index `i` with
`N - i - 1 > 10`, the dialog message body at index `i` is exactly the
entry lines of the 10 items at indices `i+1..i+10` followed by the
"+K more" summary with `K = N - i - 11`, and nothing further. -/
theorem buildDialogBody_truncation (found : List LocalComponent)
    (i : Nat) (h : 10 < found.length - i - 1) :
    buildDialogBody found i
      = concatLines ((found.drop (i + 1)).take 10) ++
          warningPromptOtherNotShown (found.length - i - 11) := by
  have hN : i + 11 < found.length := by omega
  exact dialogBodyAux_window found i hN 10 (i + 1) (by omega) (by omega)

/-- Witness for C6 on twelve found items at index 0. -/
theorem buildDialogBody_truncation_witness :
    10 < manyTwelve.length - 0 - 1 ∧
    buildDialogBody manyTwelve 0
      = concatLines ((manyTwelve.drop (0 + 1)).take 10) ++
          warningPromptOtherNotShown (manyTwelve.length - 0 - 11) :=
  ⟨by decide, buildDialogBody_truncation manyTwelve 0 (by decide)⟩

/-- C4: for a CONTINUE input to the timestamp-based checker with
conflict detection enabled and a resolvable username, if the
snapshot-load collaborator or the diff-build collaborator throws, the
deploy lock is released exactly once and the result is a CANCEL
carrying no message. -/
theorem timestampCheck_collaborator_failure {κ : Type}
    (isManifest : Bool) (messages : ConflictDetectionMessages)
    (env : TimestampEnv κ) (componentPath : String)
    (henabled : env.conflictDetectionEnabled = true)
    (huser : isFalsyUsername env.username = false)
    (hthrow :
      (∃ e, env.loadCache componentPath env.rootWorkspacePath isManifest
          = .error e) ∨
      (∃ cache e,
        env.loadCache componentPath env.rootWorkspacePath isManifest
            = .ok cache ∧ env.createDiffs cache = .error e)) :
    (TimestampConflictChecker.check isManifest messages env
        (.cont componentPath)).1 = .cancel none ∧
      (TimestampConflictChecker.check isManifest messages env
        (.cont componentPath)).2.count .unlock = 1 := by
  rcases hthrow with ⟨e, he⟩ | ⟨cache, e, hok, he⟩
  · simp [TimestampConflictChecker.check, henabled, huser, he,
      timestampCatchEffects, List.count_append, List.count_cons]
  · simp [TimestampConflictChecker.check, henabled, huser, hok, he,
      timestampCatchEffects, List.count_append, List.count_cons]

/-- Witness for C4: a concrete environment whose snapshot load throws. -/
theorem timestampCheck_collaborator_failure_witness :
    (throwingTimestampEnv.conflictDetectionEnabled = true ∧
      isFalsyUsername throwingTimestampEnv.username = false ∧
      throwingTimestampEnv.loadCache "p"
        throwingTimestampEnv.rootWorkspacePath false = .error "boom") ∧
    (TimestampConflictChecker.check false sampleMessages
        throwingTimestampEnv (.cont "p")).1 = .cancel none ∧
    (TimestampConflictChecker.check false sampleMessages
        throwingTimestampEnv (.cont "p")).2.count .unlock = 1 :=
  ⟨⟨rfl, rfl, rfl⟩,
    timestampCheck_collaborator_failure false sampleMessages
      throwingTimestampEnv "p" rfl rfl (Or.inl ⟨"boom", rfl⟩)⟩

/-- C7: with the conflict-detection setting disabled, both the
manifest-based and the timestamp-based checkers return their input
identically — CONTINUE or CANCEL alike — with an empty effect trace, so
no comparison, prompt or output-channel collaborator is ever invoked. -/
theorem disabled_checkers_pass_through {κ : Type} (env : ConflictEnv)
    (tenv : TimestampEnv κ) (isManifest : Bool)
    (messages tmessages : ConflictDetectionMessages)
    (inputs tinputs : CheckResult String)
    (h1 : env.conflictDetectionEnabled = false)
    (h2 : tenv.conflictDetectionEnabled = false) :
    ConflictDetectionChecker.check env messages inputs = (inputs, []) ∧
    TimestampConflictChecker.check isManifest tmessages tenv tinputs
      = (tinputs, []) := by
  constructor
  · simp [ConflictDetectionChecker.check, h1]
  · simp [TimestampConflictChecker.check, h2]

/-- Witness for C7 with concrete disabled environments. -/
theorem disabled_checkers_pass_through_witness :
    (disabledConflictEnv.conflictDetectionEnabled = false ∧
      disabledTimestampEnv.conflictDetectionEnabled = false) ∧
    ConflictDetectionChecker.check disabledConflictEnv sampleMessages
        (.cont "manifest") = (.cont "manifest", []) ∧
    TimestampConflictChecker.check true sampleMessages
        disabledTimestampEnv (.cancel (some "m"))
      = (.cancel (some "m"), []) :=
  ⟨⟨rfl, rfl⟩,
    disabled_checkers_pass_through disabledConflictEnv
      disabledTimestampEnv true sampleMessages sampleMessages
      (.cont "manifest") (.cancel (some "m")) rfl rfl⟩

/-- C8: with conflict detection enabled and no resolvable username, both
checkers cancel carrying the human-readable no-default-username message;
the manifest checker emits no effects at all, and the timestamp checker
invokes no comparison, snapshot, diff or prompt collaborator. -/
theorem missing_username_cancels {κ : Type} (env : ConflictEnv)
    (tenv : TimestampEnv κ) (isManifest : Bool)
    (messages tmessages : ConflictDetectionMessages) (payload : String)
    (h1 : env.conflictDetectionEnabled = true)
    (h2 : tenv.conflictDetectionEnabled = true)
    (hu1 : isFalsyUsername env.username = true)
    (hu2 : isFalsyUsername tenv.username = true) :
    ConflictDetectionChecker.check env messages (.cont payload)
        = (.cancel (some conflictDetectNoDefaultUsername), []) ∧
      (TimestampConflictChecker.check isManifest tmessages tenv
          (.cont payload)).1
        = .cancel (some conflictDetectNoDefaultUsername) ∧
      (TimestampConflictChecker.check isManifest tmessages tenv
          (.cont payload)).2.countP isCollaboratorCall = 0 := by
  refine ⟨?_, ?_, ?_⟩
  · simp [ConflictDetectionChecker.check, h1, hu1]
  · simp [TimestampConflictChecker.check, h2, hu2]
  · simp [TimestampConflictChecker.check, h2, hu2, isCollaboratorCall]

/-- Witness for C8 with concrete username-less environments. -/
theorem missing_username_cancels_witness :
    (noUserConflictEnv.conflictDetectionEnabled = true ∧
      noUserTimestampEnv.conflictDetectionEnabled = true ∧
      isFalsyUsername noUserConflictEnv.username = true ∧
      isFalsyUsername noUserTimestampEnv.username = true) ∧
    ConflictDetectionChecker.check noUserConflictEnv sampleMessages
        (.cont "manifest")
      = (.cancel (some conflictDetectNoDefaultUsername), []) ∧
    (TimestampConflictChecker.check false sampleMessages
        noUserTimestampEnv (.cont "manifest")).1
      = .cancel (some conflictDetectNoDefaultUsername) ∧
    (TimestampConflictChecker.check false sampleMessages
        noUserTimestampEnv (.cont "manifest")).2.countP
        isCollaboratorCall = 0 :=
  ⟨⟨rfl, rfl, rfl, rfl⟩,
    missing_username_cancels noUserConflictEnv noUserTimestampEnv false
      sampleMessages sampleMessages "manifest" rfl rfl rfl rfl⟩

end Sfdx
